import Mathlib

/-!
Shallow embedding of the SmartOrder AI recommendation pipeline
(`app/context_builder.py`, `app/rule_engine.py`, `app/pattern_engine.py`,
`app/scoring_engine.py`, `app/parameter_engine.py`, `app/ebm_stub.py`,
`app/explain_engine.py`, `app/main.py`).

Modelling conventions:
- Python floats are embedded as exact rationals (`ℚ`); `round(x, 2)` is
  embedded as nearest-integer rounding of `100 * x` (`round2`), and `int(x)`
  as truncation toward zero (`pyInt`).
- Wall-clock timestamps are minutes since midnight (`ℕ`).  The pipeline reads
  the clock twice in the source: `datetime.now()` inside
  `_system_minutes_to_close` (called from `build_context`) and inside
  `_synthetic_market_now` (called from `build_core_fields`); the embedding
  makes the two samples explicit parameters `now1` and `now2`.
  `strftime "%H:%M"` output is kept as the underlying minute count (the
  rendering is injective below 24h, so properties are unaffected).
- `pandas` reference tables are embedded as lists of records; a `.loc` row
  lookup by key is `List.find?` (first matching row, like `.iloc[0]`).
- Free-text notes are `Option String`; `text.lower()` followed by Python's
  `needle in text` is `lowerChars` / `containsChars` over `List Char`.
-/

/-! ### String primitives -/

/-- Python `hay.startswith(needle)` over character lists. -/
def startsWithChars : List Char → List Char → Bool
  | _, [] => true
  | [], _ :: _ => false
  | c :: hs, d :: ns => c == d && startsWithChars hs ns

/-- Python `needle in hay` (substring containment) over character lists. -/
def containsChars (hay needle : List Char) : Bool :=
  match hay with
  | [] => needle.isEmpty
  | c :: t => startsWithChars (c :: t) needle || containsChars t needle

/-- Python `s.lower()` producing the character list the parsers scan. -/
def lowerChars (s : String) : List Char := s.toList.map Char.toLower

/-- Python `needle in text` where `text : List Char` is already lowered. -/
def containsStr (hay : List Char) (needle : String) : Bool :=
  containsChars hay needle.toList

/-! ### Numeric primitives -/

/-- Python `round(x, 2)` (nearest-integer rounding of `100 * x`; ties are
irrelevant to every property proved below). -/
def round2 (q : ℚ) : ℚ := ((round (q * 100) : ℤ) : ℚ) / 100

/-- Python `int(x)`: truncation toward zero. -/
def pyInt (q : ℚ) : ℤ := if q < 0 then Int.ceil q else Int.floor q

/-! ### Data model (`app/models.py`, `app/data_loader.py`) -/

/-- `OrderRequest` (pydantic: `order_size` has `gt=0`, `time_to_close` has
`ge=0`, both ints). -/
structure OrderRequest where
  client_id : String
  symbol : String
  order_size : ℕ
  direction : String
  time_to_close : ℕ
  notes : Option String
deriving Repr, DecidableEq

/-- Row shape returned by `get_client_profile`. -/
structure ClientProfile where
  client_id : String
  urgency_profile : String
  preferred_algo : String
  aggression_bias : String
  participation_pref : ℚ
deriving Repr, DecidableEq

/-- Row shape returned by `get_instrument_profile`. -/
structure InstrumentProfile where
  symbol : String
  adv : ℤ
  volatility_bucket : String
  liquidity_bucket : String
deriving Repr, DecidableEq

/-- Row shape returned by `get_market_snapshot`. -/
structure MarketSnapshot where
  symbol : String
  spread : ℚ
  intraday_vol : ℚ
  last_trade_size : ℤ
  bid : ℚ
  ask : ℚ
  ltp : ℚ
deriving Repr, DecidableEq

/-- Row shape of the `historical_orders` table. -/
structure HistoricalOrderRecord where
  client_id : String
  symbol : String
  size_bucket : String
  volatility_bucket : String
  algo_used : String
  aggression_level : String
deriving Repr, DecidableEq

/-- The four reference tables produced by `load_all_data`. -/
structure RefData where
  clients : List ClientProfile
  instruments : List InstrumentProfile
  market_snapshots : List MarketSnapshot
  historical_orders : List HistoricalOrderRecord
deriving Repr, DecidableEq

/-- `get_client_profile`: first row of `clients` matching `client_id`. -/
def getClientProfile (client_id : String) (data : RefData) : Option ClientProfile :=
  data.clients.find? (fun c => c.client_id == client_id)

/-- `get_instrument_profile`: first row of `instruments` matching `symbol`. -/
def getInstrumentProfile (symbol : String) (data : RefData) : Option InstrumentProfile :=
  data.instruments.find? (fun i => i.symbol == symbol)

/-- `get_market_snapshot`: first row of `market_snapshot` matching `symbol`. -/
def getMarketSnapshot (symbol : String) (data : RefData) : Option MarketSnapshot :=
  data.market_snapshots.find? (fun m => m.symbol == symbol)

/-! ### Notes parsing (`app/context_builder.py`) -/

/-- Output of `_parse_notes_flags`. -/
structure NotesFlags where
  vwap : Bool
  urgent : Bool
  close : Bool
  benchmark : Bool
deriving Repr, DecidableEq

/-- `_parse_notes_flags`: keyword flags over `(notes or "").lower()`. -/
def parseNotesFlags (notes : Option String) : NotesFlags :=
  let text := lowerChars (notes.getD "")
  { vwap := containsStr text "vwap"
    urgent := containsStr text "urgent"
    close := containsStr text "close"
    benchmark := containsStr text "benchmark" }

/-- Output of `_parse_notes_intents`. -/
structure NotesIntents where
  urgency_intent : Option String
  benchmark_type : Option String
  aggression_preference : Option String
  completion_required : Bool
  market_impact_sensitive : Bool
deriving Repr, DecidableEq

/-- `_parse_notes_intents`: deterministic phrase/keyword extraction.
The urgency/completion block is an `if`/`elif` chain in the source, and the
`"steady execution"` arm executes `urgency_intent or "MEDIUM"` at a point
where `urgency_intent` is still `None`, so it is plain `"MEDIUM"` here. -/
def parseNotesIntents (notes : Option String) : NotesIntents :=
  let text := lowerChars (notes.getD "")
  let benchmark_type0 : Option String :=
    if containsStr text "vwap benchmark" || containsStr text "benchmark: vwap" ||
        containsStr text "vwap " then some "VWAP" else none
  let benchmark_type : Option String :=
    if containsStr text "benchmark: arrival price" || containsStr text "arrival price"
    then some "ARRIVAL" else benchmark_type0
  let urgency_completion : Option String × Bool :=
    if containsStr text "eod compliance required" || containsStr text "must complete by close"
    then (some "HIGH", true)
    else if containsStr text "must complete" then (some "HIGH", true)
    else if containsStr text "urgent" then (some "HIGH", false)
    else if containsStr text "steady execution" then (some "MEDIUM", false)
    else (none, false)
  let market_impact_sensitive : Bool :=
    containsStr text "minimize market impact" || containsStr text "minimise market impact"
  let aggression_preference0 : Option String :=
    if market_impact_sensitive then some "LOW" else none
  let aggression_preference : Option String :=
    if containsStr text "steady execution" then
      match aggression_preference0 with
      | none => some "MEDIUM"
      | some a => some a
    else aggression_preference0
  { urgency_intent := urgency_completion.1
    benchmark_type := benchmark_type
    aggression_preference := aggression_preference
    completion_required := urgency_completion.2
    market_impact_sensitive := market_impact_sensitive }

/-! ### Context assembly (`app/context_builder.py`) -/

/-- `_urgency_from_time_to_close`. -/
def urgencyFromTimeToClose (minutes_to_close : ℕ) : String :=
  if minutes_to_close < 15 then "High"
  else if minutes_to_close < 60 then "Medium"
  else "Low"

/-- `_system_minutes_to_close`: `max(0, minutes until the 16:00 close)` for a
clock sample `nowMin` in minutes since midnight (ℕ subtraction truncates at
zero exactly like the `max(0, ...)` in the source). -/
def systemMinutesToClose (nowMin : ℕ) : ℕ := 960 - nowMin

/-- `_volatility_bucket_from_intraday`. -/
def volatilityBucketFromIntraday (vol : ℚ) : String :=
  if vol ≤ 1/100 then "Low"
  else if vol ≤ 2/100 then "Medium"
  else "High"

/-- `_liquidity_score`: `(adv/1e6 * 0.6 + avg_trade_size/1000 * 0.4) / max(spread, 0.01)`. -/
def liquidityScore (adv spread avg_trade_size : ℚ) : ℚ :=
  (adv / 1000000 * (6/10) + avg_trade_size / 1000 * (4/10)) / max spread (1/100)

/-- Insertion step for the sorted list used by `medianQ`. -/
def insertSorted (x : ℚ) : List ℚ → List ℚ
  | [] => [x]
  | y :: ys => if x ≤ y then x :: y :: ys else y :: insertSorted x ys

/-- `pandas` `Series.median()`: middle element of the sorted values, or the
mean of the two middle elements for an even count (0 for an empty list,
unreachable in the source because of the `ratios.empty` guard). -/
def medianQ (l : List ℚ) : ℚ :=
  let s := l.foldr insertSorted []
  let n := s.length
  if n % 2 = 1 then s.getD (n / 2) 0
  else (s.getD (n / 2 - 1) 0 + s.getD (n / 2) 0) / 2

/-- `size_bucket -> ratio` map of `_historical_size_tolerance`; rows with an
unknown bucket are dropped (`dropna`). -/
def bucketRatio : String → Option ℚ
  | "small" => some (2/100)
  | "medium" => some (10/100)
  | "large" => some (30/100)
  | _ => none

/-- `_historical_size_tolerance`: `(fat_finger_flag, historical_tolerance_ratio)`. -/
def historicalSizeTolerance (client_id symbol : String) (size_vs_adv : ℚ)
    (hist : List HistoricalOrderRecord) : Bool × Option ℚ :=
  if hist.isEmpty then (false, none)
  else
    let subset0 := hist.filter (fun h => h.client_id == client_id && h.symbol == symbol)
    let subset := if subset0.isEmpty then hist.filter (fun h => h.client_id == client_id)
      else subset0
    if subset.isEmpty then (false, none)
    else
      let ratios := subset.filterMap (fun h => bucketRatio h.size_bucket)
      if ratios.isEmpty then (false, none)
      else
        let tolerance := medianQ ratios * 3
        (decide (tolerance < size_vs_adv), some tolerance)

/-- The per-request `context` dict built by `build_context`. -/
structure Context where
  request : OrderRequest
  client_profile : Option ClientProfile
  instrument_profile : Option InstrumentProfile
  market_snapshot : Option MarketSnapshot
  size_vs_adv : ℚ
  adv : ℚ
  volatility_bucket_instrument : String
  volatility_bucket : String
  intraday_vol : ℚ
  liquidity_bucket : String
  liquidity_score : ℚ
  spread : ℚ
  bid : Option ℚ
  ask : Option ℚ
  ltp : Option ℚ
  time_to_close_request : ℕ
  time_to_close_system : ℕ
  effective_time_to_close : ℕ
  urgency_level : String
  notes_flags : NotesFlags
  notes_intents : NotesIntents
  fat_finger_flag : Bool
  historical_tolerance_ratio : Option ℚ
deriving Repr, DecidableEq

/-- `build_context`.  `now1` is the single `datetime.now()` read performed
inside this stage (by `_system_minutes_to_close`). -/
def buildContext (request : OrderRequest) (data : RefData) (now1 : ℕ) : Context :=
  let client := getClientProfile request.client_id data
  let instrument := getInstrumentProfile request.symbol data
  let market := getMarketSnapshot request.symbol data
  let adv : ℚ := match instrument with
    | some i => (i.adv : ℚ)
    | none => 1
  let size_vs_adv : ℚ := if adv ≠ 0 then (request.order_size : ℚ) / adv else 0
  let volatility_bucket_instr := match instrument with
    | some i => i.volatility_bucket
    | none => "Medium"
  let liquidity_bucket := match instrument with
    | some i => i.liquidity_bucket
    | none => "Medium"
  let spread : ℚ := match market with
    | some m => m.spread
    | none => 0
  let intraday_vol : ℚ := match market with
    | some m => m.intraday_vol
    | none => 15/1000
  let avg_trade_size : ℚ := match market with
    | some m => (m.last_trade_size : ℚ)
    | none => 500
  let bid : Option ℚ := match market with
    | some m => some m.bid
    | none => none
  let ask : Option ℚ := match market with
    | some m => some m.ask
    | none => none
  let ltp : Option ℚ := match market with
    | some m => some m.ltp
    | none => none
  let market_vol_bucket := volatilityBucketFromIntraday intraday_vol
  let liquidity_score := liquidityScore adv spread avg_trade_size
  let time_to_close_req := request.time_to_close
  let time_to_close_sys := systemMinutesToClose now1
  let effective_time_to_close :=
    if time_to_close_sys = 0 ∧ 0 < time_to_close_req then time_to_close_req
    else if time_to_close_req = 0 ∧ 0 < time_to_close_sys then time_to_close_sys
    else if 0 < time_to_close_req ∧ 0 < time_to_close_sys then
      min time_to_close_req time_to_close_sys
    else 0
  let notes_flags := parseNotesFlags request.notes
  let notes_intents := parseNotesIntents request.notes
  let urgency_level0 := urgencyFromTimeToClose effective_time_to_close
  let urgency_level :=
    if notes_intents.urgency_intent = some "HIGH" then "High"
    else if notes_intents.urgency_intent = some "MEDIUM" ∧ urgency_level0 = "Low"
    then "Medium"
    else urgency_level0
  let size_tolerance := historicalSizeTolerance request.client_id request.symbol
    size_vs_adv data.historical_orders
  { request := request
    client_profile := client
    instrument_profile := instrument
    market_snapshot := market
    size_vs_adv := size_vs_adv
    adv := adv
    volatility_bucket_instrument := volatility_bucket_instr
    volatility_bucket := market_vol_bucket
    intraday_vol := intraday_vol
    liquidity_bucket := liquidity_bucket
    liquidity_score := liquidity_score
    spread := spread
    bid := bid
    ask := ask
    ltp := ltp
    time_to_close_request := time_to_close_req
    time_to_close_system := time_to_close_sys
    effective_time_to_close := effective_time_to_close
    urgency_level := urgency_level
    notes_flags := notes_flags
    notes_intents := notes_intents
    fat_finger_flag := size_tolerance.1
    historical_tolerance_ratio := size_tolerance.2 }

/-! ### Rule engine (`app/rule_engine.py`) -/

/-- Result of `apply_rules`: optional overrides plus ordered reasons. -/
structure RuleResult where
  algo : Option String
  aggression : Option String
  order_type : Option String
  reasons : List String
deriving Repr, DecidableEq

/-- `apply_rules`: the six hard rules, evaluated in source order.  Each
`let` mirrors one `if` block of the source; reasons are accumulated in the
same order as the `reasons.append` calls. -/
def applyRules (context : Context) : RuleResult :=
  let notes_flags := context.notes_flags
  let notes_intents := context.notes_intents
  let urgency_level := context.urgency_level
  let size_vs_adv := context.size_vs_adv
  let liquidity_bucket := context.liquidity_bucket
  -- Rule 1: explicit VWAP benchmark in notes or flags -> force VWAP
  let rule1 := notes_flags.vwap = true ∨ notes_intents.benchmark_type = some "VWAP"
  let algo1 : Option String := if rule1 then some "VWAP" else none
  let r1 : List String := if rule1 then
    ["Notes specify VWAP benchmark; algo forced to VWAP"] else []
  -- Rule 2: completion required -> POV if algo unset; aggression High
  let algo2 : Option String := if notes_intents.completion_required then
      (if algo1 = none then some "POV" else algo1)
    else algo1
  let aggr2 : Option String := if notes_intents.completion_required then some "High" else none
  let r2 : List String := if notes_intents.completion_required then
      ((if algo1 = none then ["Order must complete by close; algo forced to POV"] else []) ++
        ["Completion requirement: aggression forced to High"])
    else []
  -- Rule 3: urgency High and aggression unset -> aggression High
  let rule3 := urgency_level = "High" ∧ aggr2 = none
  let aggr3 : Option String := if rule3 then some "High" else aggr2
  let r3 : List String := if rule3 then
    ["High urgency from time-to-close; aggression set to High"] else []
  -- Rule 4: order > 25% ADV -> Limit
  let rule4 := 1/4 < size_vs_adv
  let ot4 : Option String := if rule4 then some "Limit" else none
  let r4 : List String := if rule4 then
    ["Order size > 25% ADV; avoiding Market order (using Limit)"] else []
  -- Rule 5: impact-sensitive and low liquidity -> Limit
  let rule5 := notes_intents.market_impact_sensitive = true ∧ liquidity_bucket = "Low"
  let ot5 : Option String := if rule5 then
      (if ot4 ≠ some "Limit" then some "Limit" else ot4)
    else ot4
  let r5 : List String := if rule5 then
    ["Impact-sensitive in low liquidity; Market orders disallowed (Limit only)"] else []
  -- Rule 6: urgency High and algo unset -> POV
  let rule6 := urgency_level = "High" ∧ algo2 = none
  let algo6 : Option String := if rule6 then some "POV" else algo2
  let r6 : List String := if rule6 then ["End-of-day urgency; defaulting to POV"] else []
  { algo := algo6
    aggression := aggr3
    order_type := ot5
    reasons := r1 ++ r2 ++ r3 ++ r4 ++ r5 ++ r6 }

/-! ### Pattern engine (`app/pattern_engine.py`) -/

/-- `_size_bucket`: `< 0.05` small, `< 0.20` medium, else large. -/
def sizeBucket (size_vs_adv : ℚ) : String :=
  if size_vs_adv < 5/100 then "small"
  else if size_vs_adv < 20/100 then "medium"
  else "large"

/-- `value_counts().index[0]`: the most frequent value, ties broken by first
appearance in the column (`pandas` groups in order of first occurrence and
sorts with a stable sort). -/
def mostFrequent (l : List String) : Option String :=
  let uniq := l.foldl (fun acc s => if s ∈ acc then acc else acc ++ [s]) []
  uniq.foldl (fun best s =>
    match best with
    | none => some s
    | some b => if l.count b < l.count s then some s else best) none

/-- `match_historical`: returns `(preferred_algo, preferred_aggression, reasons)`. -/
def matchHistorical (client_id : String) (_symbol : String) (size_vs_adv : ℚ)
    (volatility_bucket : String) (hist : List HistoricalOrderRecord) :
    Option String × Option String × List String :=
  if hist.isEmpty then (none, none, [])
  else
    let bucket := sizeBucket size_vs_adv
    let subset0 := hist.filter (fun h =>
      h.client_id == client_id && h.size_bucket == bucket &&
        h.volatility_bucket == volatility_bucket)
    let subset := if subset0.isEmpty then
        hist.filter (fun h => h.client_id == client_id && h.size_bucket == bucket)
      else subset0
    if subset.isEmpty then (none, none, [])
    else
      let preferred_algo := mostFrequent (subset.map (fun h => h.algo_used))
      let preferred_aggression := mostFrequent (subset.map (fun h => h.aggression_level))
      let reasons :=
        (match preferred_algo with
          | some a => if a ≠ "" then
              ["Client historically prefers " ++ a ++ " (size bucket=" ++ bucket ++
                ", vol=" ++ volatility_bucket ++ ")"]
            else []
          | none => []) ++
        (match preferred_aggression with
          | some g => if g ≠ "" then ["Historical aggression for this context: " ++ g]
            else []
          | none => [])
      (preferred_algo, preferred_aggression, reasons)

/-! ### EBM stub (`app/ebm_stub.py`) and scoring (`app/scoring_engine.py`) -/

/-- The additive scores per candidate (`scores: Dict[str, float]`). -/
structure AlgoScores where
  vwap : ℚ
  pov : ℚ
  iceberg : ℚ
deriving Repr, DecidableEq

/-- `scores[a]` lookup (callers only use keys from `ALGOS`). -/
def AlgoScores.get (s : AlgoScores) (a : String) : ℚ :=
  if a = "VWAP" then s.vwap
  else if a = "POV" then s.pov
  else if a = "ICEBERG" then s.iceberg
  else 0

/-- `ebm_adjust_algo_scores`: the deliberate no-op extension seam. -/
def ebmAdjustAlgoScores (_context : Context) (base_scores : AlgoScores) :
    AlgoScores × List String :=
  (base_scores, [])

/-- The `ALGOS` candidate list. -/
def ALGOS : List String := ["VWAP", "POV", "ICEBERG"]

/-- `_dedupe` (shared by `scoring_engine.py` and `explain_engine.py`):
keep the first occurrence of each non-empty string. -/
def dedupe (seq : List String) : List String :=
  seq.foldl (fun out s => if s ≠ "" ∧ s ∉ out then out ++ [s] else out) []

/-- Mutable state of `score_algos`: scores plus `reasons_by_algo`. -/
structure ScoreState where
  scores : AlgoScores
  reasonsVWAP : List String
  reasonsPOV : List String
  reasonsICEBERG : List String
deriving Repr, DecidableEq

/-- `bump("VWAP", delta, reason)`. -/
def bumpVWAP (st : ScoreState) (delta : ℚ) (reason : String) : ScoreState :=
  { st with scores := { st.scores with vwap := st.scores.vwap + delta }
            reasonsVWAP := st.reasonsVWAP ++ [reason] }

/-- `bump("POV", delta, reason)`. -/
def bumpPOV (st : ScoreState) (delta : ℚ) (reason : String) : ScoreState :=
  { st with scores := { st.scores with pov := st.scores.pov + delta }
            reasonsPOV := st.reasonsPOV ++ [reason] }

/-- `bump("ICEBERG", delta, reason)`. -/
def bumpICEBERG (st : ScoreState) (delta : ℚ) (reason : String) : ScoreState :=
  { st with scores := { st.scores with iceberg := st.scores.iceberg + delta }
            reasonsICEBERG := st.reasonsICEBERG ++ [reason] }

/-- `reasons_by_algo.get(a, [])`. -/
def ScoreState.reasonsFor (st : ScoreState) (a : String) : List String :=
  if a = "VWAP" then st.reasonsVWAP
  else if a = "POV" then st.reasonsPOV
  else if a = "ICEBERG" then st.reasonsICEBERG
  else []

/-- The additive factor accumulation of `score_algos` (the sequence of `bump`
calls before the rule-override check), in source order. -/
def scoreAllFactors (context : Context) : ScoreState :=
  let size_vs_adv := context.size_vs_adv
  let urgency_level := context.urgency_level
  let eff_ttc := context.effective_time_to_close
  let liquidity_bucket := context.liquidity_bucket
  let liquidity_score := context.liquidity_score
  let volatility_bucket := context.volatility_bucket
  let ni := context.notes_intents
  let st : ScoreState := ⟨⟨0, 0, 0⟩, [], [], []⟩
  -- Size vs ADV
  let st := if 25/100 < size_vs_adv then
      bumpPOV (bumpVWAP st 3 "Large order vs ADV; VWAP handles size efficiently")
        1 "Large order; POV participation can control footprint"
    else if 10/100 < size_vs_adv then
      bumpVWAP st 2 "Medium/large order size; VWAP suitable"
    else bumpPOV st 1 "Small order size; POV remains flexible"
  -- Urgency / time-to-close
  let st := if urgency_level = "High" ∨ eff_ttc ≤ 20 then
      bumpPOV st 4 "High urgency / near close; POV favored to get done"
    else if urgency_level = "Medium" then
      bumpPOV st (3/2) "Medium urgency; light tilt toward POV"
    else bumpVWAP st 1 "Low urgency; VWAP acceptable for benchmark-style execution"
  let st := if ni.completion_required then
      bumpPOV st 3 "Order notes require completion by close; POV favored"
    else st
  -- Volatility
  let st := if volatility_bucket = "Low" then
      bumpVWAP st 2 "Low volatility; VWAP stable and benchmark-friendly"
    else if volatility_bucket = "High" then
      bumpICEBERG (bumpPOV st (3/2) "High volatility; POV can react to volume")
        (3/2) "High volatility; ICEBERG can hide size"
    else st
  -- Liquidity
  let st := if liquidity_bucket = "Low" ∨ liquidity_score < 8/10 then
      bumpICEBERG st 3 "Low liquidity; ICEBERG reduces market impact"
    else if liquidity_bucket = "High" ∧ 12/10 < liquidity_score then
      bumpPOV st 1 "High liquidity; POV can safely participate aggressively"
    else st
  -- Notes-based intents
  let st := if ni.benchmark_type = some "VWAP" then
      bumpVWAP st 5 "Notes specify VWAP benchmark; VWAP strongly preferred"
    else if ni.benchmark_type = some "ARRIVAL" then
      bumpPOV st 2 "Notes reference arrival price; POV aligns with participation around arrival"
    else st
  let st := if ni.market_impact_sensitive then
      bumpVWAP (bumpICEBERG st 3 "Notes request to minimize market impact; ICEBERG favored")
        1 "Impact-sensitive; VWAP is more passive than aggressive POV"
    else st
  let st := if ni.aggression_preference = some "HIGH" then
      bumpPOV st 2 "Notes prefer higher aggression; POV prioritized"
    else if ni.aggression_preference = some "LOW" then
      bumpICEBERG (bumpVWAP st (3/2) "Low aggression preference; VWAP more passive")
        1 "Low aggression preference; ICEBERG hides size"
    else st
  st

/-- Python `max(l, key=key)`: first element attaining the maximum key
(`dflt` is returned for an empty list, unreachable here since `ALGOS` is
non-empty). -/
def pyMaxByKey (key : String → ℚ) (l : List String) (dflt : String) : String :=
  match l with
  | [] => dflt
  | x :: xs => xs.foldl (fun best a => if key best < key a then a else best) x

/-- The non-overridden tail of `score_algos`: EBM adjustment, argmax with the
fixed (VWAP, POV, ICEBERG) tie-break, then the pattern nudge and dedup. -/
def selectByScores (context : Context) (st : ScoreState) (pattern_algo : Option String) :
    String × List String :=
  let adjusted := ebmAdjustAlgoScores context st.scores
  let scores := adjusted.1
  let ebm_reasons := adjusted.2
  let best_algo := pyMaxByKey scores.get ALGOS "VWAP"
  let best_score := scores.get best_algo
  let nudged : String × List String :=
    match pattern_algo with
    | some pa =>
      if pa ≠ "" ∧ pa ∈ ALGOS ∧ best_score - 1 ≤ scores.get pa then
        (pa, st.reasonsFor pa ++
          ["Historical preference lightly boosted " ++ pa ++ " over other candidates"])
      else (best_algo, st.reasonsFor best_algo)
    | none => (best_algo, st.reasonsFor best_algo)
  (nudged.1, dedupe (nudged.2 ++ ebm_reasons))

/-- `score_algos`: rule override short-circuits (scores are still computed,
as in the source, for explanatory completeness); otherwise selection falls
to `selectByScores`.  The Python truthiness guard `if rule_algo and
rule_algo in ALGOS` is `ra ≠ "" ∧ ra ∈ ALGOS`. -/
def scoreAlgos (context : Context) (rule_algo pattern_algo : Option String) :
    String × List String :=
  let st := scoreAllFactors context
  match rule_algo with
  | some ra =>
    if ra ≠ "" ∧ ra ∈ ALGOS then
      (ra, dedupe ("Algo forced by hard rule engine" :: st.reasonsFor ra))
    else selectByScores context st pattern_algo
  | none => selectByScores context st pattern_algo

/-! ### Parameter engine (`app/parameter_engine.py`) -/

/-- Python truthiness of an optional float (`None` and `0.0` are falsy). -/
def pyTruthy (x : Option ℚ) : Bool :=
  match x with
  | some v => decide (v ≠ 0)
  | none => false

/-- Python `x or y` for an optional float `x` and float fallback `y`. -/
def pyOrQ (x : Option ℚ) (y : ℚ) : ℚ :=
  match x with
  | some v => if v ≠ 0 then v else y
  | none => y

/-- `_protection_banded_limit_price` (the unused `mid` of the source is
omitted).  `direction.lower() == "buy"` is compared at character level. -/
def protectionBandedLimitPrice (direction : String) (bid0 ask0 ltp : Option ℚ)
    (spread0 : ℚ) : Option ℚ :=
  if pyTruthy ltp = false ∧ bid0 = none ∧ ask0 = none then none
  else
    let bid1 : Option ℚ :=
      if bid0 = none ∧ ask0 ≠ none then some (ask0.getD 0 - spread0) else bid0
    let ask1 : Option ℚ :=
      if ask0 = none ∧ bid1 ≠ none then some (bid1.getD 0 + spread0) else ask0
    let bid : ℚ := pyOrQ bid1 (pyOrQ ltp 0)
    let ask : ℚ := pyOrQ ask1 (pyOrQ ltp 0)
    let spread : ℚ := if spread0 ≠ 0 then spread0 else max (ask - bid) (1/100)
    if lowerChars direction == "buy".toList then
      some (round2 (min (bid + (25/100) * spread) (ask + spread)))
    else
      some (round2 (max (ask - (25/100) * spread) (bid - spread)))

/-- `_tif_from_window`. -/
def tifFromWindow (effective_minutes_to_close : ℕ) : String :=
  if effective_minutes_to_close ≤ 5 then "IOC" else "DAY"

/-- `_synthetic_market_now`: clamp the wall-clock sample (minutes since
midnight) into the 09:30-15:55 session, defaulting to 10:00 outside it. -/
def syntheticMarketNow (nowMin : ℕ) : ℕ :=
  if nowMin < 570 ∨ 955 < nowMin then 600 else nowMin

/-- The execution-window computation of `build_core_fields` (urgency cap,
bound by effective time-to-close, and the `< 10` re-adjustment). -/
def executionWindowMinutes (urgency : String) (eff : ℕ) : ℕ :=
  let w := if urgency = "High" then min eff 30
    else if urgency = "Medium" then min eff 90
    else min eff 240
  if 0 < eff ∧ w < 10 then min eff 10 else w

/-- `CoreOrderFields` (`app/models.py`); times in minutes since midnight. -/
structure CoreOrderFields where
  order_type : String
  limit_price : Option ℚ
  direction : String
  time_in_force : String
  start_time : ℕ
  end_time : ℕ
  algo_type : String
deriving Repr, DecidableEq

/-- The order-type step of `build_core_fields`: a rule-provided order type
wins (Python truthiness: a non-empty string), else the notes "stop" keyword,
else the urgency/liquidity/spread Market branch, else Limit. -/
def coreOrderType (context : Context) (rule_order_type : Option String) :
    String × List String :=
  let request := context.request
  let urgency := context.urgency_level
  let liquidity_bucket := context.liquidity_bucket
  let spread := context.spread
  let fallback : String × List String :=
    if containsStr (lowerChars (request.notes.getD "")) "stop" = true then
      ("Stop", ["Order type: Stop (notes)"])
    else if urgency = "High" ∧ (liquidity_bucket = "High" ∨ liquidity_bucket = "Medium") ∧
        spread ≤ 1/10 then
      ("Market", ["Order type: Market (urgency, liquidity)"])
    else ("Limit", ["Order type: Limit"])
  match rule_order_type with
  | some rot => if rot ≠ "" then (rot, ["Order type: " ++ rot ++ " (rule)"]) else fallback
  | none => fallback

/-- The limit-price step of `build_core_fields` (only for Limit/Stop). -/
def coreLimitPrice (context : Context) (order_type : String) : Option ℚ :=
  if order_type = "Limit" ∨ order_type = "Stop" then
    protectionBandedLimitPrice context.request.direction context.bid context.ask
      context.ltp context.spread
  else none

/-- `build_core_fields`.  `now2` is the `datetime.now()` read performed inside
this stage by `_synthetic_market_now`; it only enters `start_time` and
`end_time`. -/
def buildCoreFields (context : Context) (chosen_algo : String)
    (rule_order_type : Option String) (now2 : ℕ) : CoreOrderFields × List String :=
  let ot := coreOrderType context rule_order_type
  let limit_price := coreLimitPrice context ot.1
  let lp_reasons : List String :=
    match limit_price with
    | some _ => ["Limit: bid/ask band"]
    | none => []
  let eff := context.effective_time_to_close
  let now := syntheticMarketNow now2
  let window := executionWindowMinutes context.urgency_level eff
  let end0 := now + window
  let end_time := if 959 < end0 then 959 else end0
  let tif := tifFromWindow eff
  ( { order_type := ot.1
      limit_price := limit_price
      direction := context.request.direction
      time_in_force := tif
      start_time := now
      end_time := end_time
      algo_type := chosen_algo }
  , ot.2 ++ lp_reasons ++ ["TIF: " ++ tif ++ " (" ++ toString window ++ "m window)"] )

/-- `AlgoParameters` (`app/models.py`). -/
structure AlgoParameters where
  participation_rate : Option ℚ
  min_clip_size : Option ℤ
  max_clip_size : Option ℤ
  volume_curve : Option String
  max_volume_pct : Option ℚ
  display_quantity : Option ℤ
  aggression_level : String
deriving Repr, DecidableEq

/-- The aggression value produced by the resolution block of
`build_algo_parameters`, in source order: client default (Python truthiness:
an empty bias falls back to "Medium"), notes preference (HIGH/LOW arms only),
urgency-High force when not already High, pattern override, rule override
(pattern/rule overrides are guarded by Python truthiness: non-empty string). -/
def resolveAggressionValue (context : Context)
    (rule_aggression pattern_aggression : Option String) : String :=
  let ni := context.notes_intents
  let urgency := context.urgency_level
  let aggression0 : String :=
    match context.client_profile with
    | some c => if c.aggression_bias ≠ "" then c.aggression_bias else "Medium"
    | none => "Medium"
  let aggression1 : String :=
    if ni.aggression_preference = some "HIGH" then "High"
    else if ni.aggression_preference = some "LOW" then "Low"
    else aggression0
  let aggression2 : String :=
    if urgency = "High" ∧ aggression1 ≠ "High" then "High" else aggression1
  let aggression3 : String :=
    match pattern_aggression with
    | some pa => if pa ≠ "" then pa else aggression2
    | none => aggression2
  match rule_aggression with
  | some ra => if ra ≠ "" then ra else aggression3
  | none => aggression3

/-- The reason lines emitted by the same aggression-resolution block, in
source (append) order; the urgency-force condition re-derives the value the
block holds after the notes step. -/
def resolveAggressionReasons (context : Context)
    (rule_aggression pattern_aggression : Option String) : List String :=
  let ni := context.notes_intents
  let urgency := context.urgency_level
  let aggression0 : String :=
    match context.client_profile with
    | some c => if c.aggression_bias ≠ "" then c.aggression_bias else "Medium"
    | none => "Medium"
  let aggression1 : String :=
    if ni.aggression_preference = some "HIGH" then "High"
    else if ni.aggression_preference = some "LOW" then "Low"
    else aggression0
  let r1 : List String :=
    if ni.aggression_preference = some "HIGH" then ["Aggression: High (notes)"]
    else if ni.aggression_preference = some "LOW" then ["Aggression: Low (notes)"]
    else []
  let r2 : List String :=
    if urgency = "High" ∧ aggression1 ≠ "High" then ["Aggression: High (urgency)"] else []
  let r3 : List String :=
    match pattern_aggression with
    | some pa => if pa ≠ "" then ["Aggression: " ++ pa ++ " (history)"] else []
    | none => []
  let r4 : List String :=
    match rule_aggression with
    | some ra => if ra ≠ "" then ["Aggression: " ++ ra ++ " (rule)"] else []
    | none => []
  r1 ++ r2 ++ r3 ++ r4

/-- The aggression-resolution block of `build_algo_parameters`:
resolved value plus its reason lines. -/
def resolveAggression (context : Context)
    (rule_aggression pattern_aggression : Option String) : String × List String :=
  (resolveAggressionValue context rule_aggression pattern_aggression,
   resolveAggressionReasons context rule_aggression pattern_aggression)

/-- `client.get("participation_pref", 0.10)` of `build_algo_parameters`. -/
def povBase (client : Option ClientProfile) : ℚ :=
  match client with
  | some c => c.participation_pref
  | none => 10/100

/-- The POV participation-rate computation of `build_algo_parameters`
(lines 277-284): client preference, `+0.02` for an ARRIVAL benchmark capped
at `0.30`, `+0.05` for urgency High capped at `0.30`, `-0.03` when
impact-sensitive floored at `0.05`, rounded to two decimals. -/
def povParticipationRate (context : Context) : ℚ :=
  let base0 := povBase context.client_profile
  let base1 := if context.notes_intents.benchmark_type = some "ARRIVAL" then
      min (base0 + 2/100) (30/100)
    else base0
  let base2 := if context.urgency_level = "High" then min (30/100) (base1 + 5/100)
    else base1
  let base3 := if context.notes_intents.market_impact_sensitive then
      max (5/100) (base2 - 3/100)
    else base2
  round2 base3

/-- `build_algo_parameters`. -/
def buildAlgoParameters (context : Context) (chosen_algo : String)
    (rule_aggression pattern_aggression : Option String) : AlgoParameters × List String :=
  let instrument := context.instrument_profile
  let market := context.market_snapshot
  let ni := context.notes_intents
  let urgency := context.urgency_level
  let volatility_bucket := context.volatility_bucket
  let adv : ℚ := match instrument with
    | some i => (i.adv : ℚ)
    | none => 1
  let order_size := context.request.order_size
  let last_trade_size : ℤ := match market with
    | some m => m.last_trade_size
    | none => 500
  let aggr := resolveAggression context rule_aggression pattern_aggression
  if chosen_algo = "POV" then
    let participation_rate := povParticipationRate context
    let pct := pyInt (participation_rate * 100)
    let avg_trade : ℤ := max last_trade_size 100
    let min_clip : ℤ := max 1 (pyInt ((avg_trade : ℚ) * (5/10)))
    let max_clip : ℤ := pyInt ((avg_trade : ℚ) * 2)
    ( { participation_rate := some participation_rate
        min_clip_size := some min_clip
        max_clip_size := some max_clip
        volume_curve := none
        max_volume_pct := none
        display_quantity := none
        aggression_level := aggr.1 }
    , aggr.2 ++ ["POV participation: " ++ toString pct ++ "%"] ++
        ["POV clips: " ++ toString min_clip ++ "â€“" ++ toString max_clip ++ " (vs avg trade)"] )
  else if chosen_algo = "VWAP" then
    let volume_curve : String :=
      if ni.benchmark_type = some "VWAP" then "Historical"
      else if urgency = "High" then "Front-loaded"
      else "Historical"
    let max_volume_pct : ℚ := if volatility_bucket = "High" then 20 else 15
    ( { participation_rate := none
        min_clip_size := none
        max_clip_size := none
        volume_curve := some volume_curve
        max_volume_pct := some max_volume_pct
        display_quantity := none
        aggression_level := aggr.1 }
    , aggr.2 ++ ["VWAP curve: " ++ volume_curve] ++
        ["VWAP max vol: " ++ toString (pyInt max_volume_pct) ++ "%"] )
  else if chosen_algo = "ICEBERG" then
    let pct_adv : ℤ := max 1 (pyInt (adv * (2/100)))
    let pct_order : ℤ := max 1 (pyInt ((order_size : ℚ) * (10/100)))
    let dq0 : ℤ := min pct_adv pct_order
    let dq : ℤ := if ni.market_impact_sensitive then max 1 (pyInt ((dq0 : ℚ) * (7/10)))
      else dq0
    ( { participation_rate := none
        min_clip_size := none
        max_clip_size := none
        volume_curve := none
        max_volume_pct := none
        display_quantity := some dq
        aggression_level := aggr.1 }
    , aggr.2 ++ ["ICEBERG display: " ++ toString dq] )
  else
    ( { participation_rate := none
        min_clip_size := none
        max_clip_size := none
        volume_curve := none
        max_volume_pct := none
        display_quantity := none
        aggression_level := aggr.1 }
    , aggr.2 )

/-! ### Explanation engine (`app/explain_engine.py`) and pipeline (`app/main.py`) -/

/-- `build_explanations`: fixed assembly order then first-occurrence dedup.
`round(x, 0)` / `"%.0f"` formatting is embedded as nearest-integer rounding
(tie behaviour is irrelevant to all properties proved here). -/
def buildExplanations (context : Context) (rule_reasons pattern_reasons
    score_reasons param_reasons : List String) : List String :=
  let ni := context.notes_intents
  let pct : ℤ := round (context.size_vs_adv * 100)
  let e1 := ["Order size is " ++ toString pct ++ "% of ADV"]
  let e2 : List String :=
    if context.fat_finger_flag then
      match context.historical_tolerance_ratio with
      | some tol =>
        if tol ≠ 0 then
          ["Quantity breaches historical size tolerance (~" ++ toString (round (tol * 100)) ++
            "% of ADV); flagging potential fat-finger"]
        else
          ["Quantity is unusually large relative to historical patterns; flagging potential fat-finger"]
      | none =>
        ["Quantity is unusually large relative to historical patterns; flagging potential fat-finger"]
    else []
  let e3 : List String :=
    if ni.benchmark_type = some "VWAP" then ["Order notes specify a VWAP benchmark"]
    else if ni.benchmark_type = some "ARRIVAL" then
      ["Order notes specify an arrival-price benchmark"]
    else []
  let e4 : List String :=
    if ni.completion_required then ["Order must complete by close as indicated in notes"]
    else []
  let e5 : List String :=
    if ni.market_impact_sensitive then ["Order notes request minimising market impact"]
    else []
  dedupe (e1 ++ e2 ++ e3 ++ e4 ++ e5 ++ score_reasons ++ param_reasons ++
    pattern_reasons ++ rule_reasons)

/-- `ContextFlags` (`app/models.py`), as filled by `run_recommend_pipeline`. -/
structure ContextFlags where
  urgency_level : String
  size_vs_adv : ℚ
  volatility_bucket : String
  liquidity_bucket : String
  spread : ℚ
  intraday_vol : ℚ
  avg_trade_size : ℚ
  liquidity_score : ℚ
  time_to_close_request : ℕ
  time_to_close_system : ℕ
  effective_time_to_close : ℕ
  fat_finger_flag : Bool
deriving Repr, DecidableEq

/-- `RecommendationResponse` (`app/models.py`). -/
structure RecommendationResponse where
  core_order_fields : CoreOrderFields
  algo_parameters : AlgoParameters
  context_flags : ContextFlags
  explanations : List String
deriving Repr, DecidableEq

/-- `run_recommend_pipeline`: the full `/recommend` computation over already
loaded reference data.  `now1` and `now2` are the two `datetime.now()` reads
the source performs (in `build_context` and `build_core_fields`). -/
def runRecommendPipeline (request : OrderRequest) (data : RefData) (now1 now2 : ℕ) :
    RecommendationResponse :=
  let context := buildContext request data now1
  let rule_result := applyRules context
  let pat := matchHistorical request.client_id request.symbol context.size_vs_adv
    context.volatility_bucket data.historical_orders
  let scored := scoreAlgos context rule_result.algo pat.1
  let core := buildCoreFields context scored.1 rule_result.order_type now2
  let algo_params := buildAlgoParameters context scored.1 rule_result.aggression pat.2.1
  let param_reasons := core.2 ++ algo_params.2
  let explanations := buildExplanations context rule_result.reasons pat.2.2 scored.2
    param_reasons
  { core_order_fields := core.1
    algo_parameters := algo_params.1
    context_flags :=
      { urgency_level := context.urgency_level
        size_vs_adv := round2 context.size_vs_adv
        volatility_bucket := context.volatility_bucket
        liquidity_bucket := context.liquidity_bucket
        spread := context.spread
        intraday_vol := context.intraday_vol
        avg_trade_size := match context.market_snapshot with
          | some m => (m.last_trade_size : ℚ)
          | none => 0
        liquidity_score := context.liquidity_score
        time_to_close_request := context.time_to_close_request
        time_to_close_system := context.time_to_close_system
        effective_time_to_close := context.effective_time_to_close
        fat_finger_flag := context.fat_finger_flag }
    explanations := explanations }

/-- The strategy selected by `score_algos` inside `run_recommend_pipeline`
(same intermediate values as the pipeline). -/
def pipelineChosenAlgo (request : OrderRequest) (data : RefData) (now1 : ℕ) : String :=
  let context := buildContext request data now1
  let rule_result := applyRules context
  let pat := matchHistorical request.client_id request.symbol context.size_vs_adv
    context.volatility_bucket data.historical_orders
  (scoreAlgos context rule_result.algo pat.1).1

/-! ### Specification-side definition used for the aggression-precedence claim -/

/-- Aggression precedence chain as the specification words it, amended only in
the notes step: client default, then a notes preference override applied for
the HIGH and LOW preference values only, then urgency-High forcing High when
not already High, then the pattern override, then the rule override (final).
Used to compare `resolveAggression` (translated from the source) against the
spec text. -/
def aggressionResolutionSpec (clientDefault : String) (notesPref : Option String)
    (urgency : String) (patternAggr ruleAggr : Option String) : String :=
  let a0 := clientDefault
  let a1 := if notesPref = some "HIGH" then "High"
    else if notesPref = some "LOW" then "Low"
    else a0
  let a2 := if urgency = "High" ∧ a1 ≠ "High" then "High" else a1
  let a3 := match patternAggr with
    | some p => if p ≠ "" then p else a2
    | none => a2
  match ruleAggr with
  | some r => if r ≠ "" then r else a3
  | none => a3

/-- `client.get("aggression_bias", "Medium") or "Medium"` of
`build_algo_parameters`. -/
def clientAggressionDefault (client : Option ClientProfile) : String :=
  match client with
  | some c => if c.aggression_bias ≠ "" then c.aggression_bias else "Medium"
  | none => "Medium"

/-! ### Concrete reference data and requests used by witnesses -/

/-- Empty reference tables (all lookups miss). -/
def emptyData : RefData :=
  { clients := [], instruments := [], market_snapshots := [], historical_orders := [] }

/-- A small urgent request: 5 minutes to close, no notes. -/
def reqShort : OrderRequest :=
  { client_id := "X", symbol := "Y", order_size := 100, direction := "Buy",
    time_to_close := 5, notes := none }

/-- A request whose notes carry a VWAP benchmark phrase. -/
def reqVwap : OrderRequest :=
  { client_id := "X", symbol := "Y", order_size := 100, direction := "Buy",
    time_to_close := 60, notes := some "VWAP benchmark" }

/-- Instrument with a tiny ADV, for a size-vs-ADV above 25%. -/
def insSmallAdv : InstrumentProfile :=
  { symbol := "SYM3", adv := 100, volatility_bucket := "Medium",
    liquidity_bucket := "Medium" }

/-- Request of 50 shares on the tiny-ADV instrument (size-vs-ADV = 0.5). -/
def reqLarge : OrderRequest :=
  { client_id := "X", symbol := "SYM3", order_size := 50, direction := "Buy",
    time_to_close := 120, notes := none }

/-- Reference data holding only the tiny-ADV instrument. -/
def dataSmallAdv : RefData :=
  { clients := [], instruments := [insSmallAdv], market_snapshots := [],
    historical_orders := [] }

/-- Client with a High aggression bias (used against the notes MEDIUM
preference). -/
def cliHighBias : ClientProfile :=
  { client_id := "C5", urgency_profile := "Low", preferred_algo := "VWAP",
    aggression_bias := "High", participation_pref := 1/10 }

/-- Request with "steady execution" notes (a MEDIUM aggression preference). -/
def reqSteady : OrderRequest :=
  { client_id := "C5", symbol := "S5", order_size := 100, direction := "Buy",
    time_to_close := 120, notes := some "steady execution" }

/-- Reference data holding only the High-bias client. -/
def dataHighBias : RefData :=
  { clients := [cliHighBias], instruments := [], market_snapshots := [],
    historical_orders := [] }

/-- The context `build_context` produces for `reqSteady`/`dataHighBias` with an
after-hours clock sample (16:40). -/
def ctxSteady : Context :=
  { request := reqSteady, client_profile := some cliHighBias,
    instrument_profile := none, market_snapshot := none, size_vs_adv := 100,
    adv := 1, volatility_bucket_instrument := "Medium", volatility_bucket := "Medium",
    intraday_vol := 3/200, liquidity_bucket := "Medium",
    liquidity_score := 1000003/50000, spread := 0, bid := none, ask := none,
    ltp := none, time_to_close_request := 120, time_to_close_system := 0,
    effective_time_to_close := 120, urgency_level := "Medium",
    notes_flags := ⟨false, false, false, false⟩,
    notes_intents := ⟨some "MEDIUM", none, some "MEDIUM", false, false⟩,
    fat_finger_flag := false, historical_tolerance_ratio := none }

/-- Client with a 50% participation preference. -/
def cliWidePref : ClientProfile :=
  { client_id := "C1", urgency_profile := "Low", preferred_algo := "VWAP",
    aggression_bias := "Medium", participation_pref := 1/2 }

/-- Liquid instrument (ADV 2M). -/
def insLiquid : InstrumentProfile :=
  { symbol := "SYM", adv := 2000000, volatility_bucket := "Medium",
    liquidity_bucket := "Medium" }

/-- Market snapshot with a 0.50 spread. -/
def mktWideSpread : MarketSnapshot :=
  { symbol := "SYM", spread := 1/2, intraday_vol := 15/1000, last_trade_size := 500,
    bid := 100, ask := 201/2, ltp := 100 }

/-- Small order (0.05% of ADV), 30 minutes to close, no notes. -/
def reqSmall : OrderRequest :=
  { client_id := "C1", symbol := "SYM", order_size := 1000, direction := "Buy",
    time_to_close := 30, notes := none }

/-- Reference data for the 50%-preference POV scenario. -/
def dataWidePref : RefData :=
  { clients := [cliWidePref], instruments := [insLiquid],
    market_snapshots := [mktWideSpread], historical_orders := [] }

/-- The context `build_context` produces for `reqSmall`/`dataWidePref` with an
after-hours clock sample (16:40). -/
def ctxSmall : Context :=
  { request := reqSmall, client_profile := some cliWidePref,
    instrument_profile := some insLiquid, market_snapshot := some mktWideSpread,
    size_vs_adv := 1/2000, adv := 2000000, volatility_bucket_instrument := "Medium",
    volatility_bucket := "Medium", intraday_vol := 3/200,
    liquidity_bucket := "Medium", liquidity_score := 14/5, spread := 1/2,
    bid := some 100, ask := some (201/2), ltp := some 100,
    time_to_close_request := 30, time_to_close_system := 0,
    effective_time_to_close := 30, urgency_level := "Medium",
    notes_flags := ⟨false, false, false, false⟩,
    notes_intents := ⟨none, none, none, false, false⟩,
    fat_finger_flag := false, historical_tolerance_ratio := none }

/-- Notes exercising first-match-wins and last-match-wins fields at once. -/
def notesMixed : Option String :=
  some "urgent steady execution arrival price minimize market impact"

/-! ### Helper lemmas -/

/-- `round` on ℚ is monotone. -/
theorem roundMonoQ {x y : ℚ} (h : x ≤ y) : (round x : ℤ) ≤ round y := by
  rw [round_eq, round_eq]
  exact Int.floor_le_floor (by linarith)

/-- `round2` keeps values inside `[0.05, 0.30]`. -/
theorem round2_mem_pov_band {x : ℚ} (h1 : 1/20 ≤ x) (h2 : x ≤ 3/10) :
    1/20 ≤ round2 x ∧ round2 x ≤ 3/10 := by
  have l1 : (5 : ℤ) ≤ round (x * 100) := by
    have := roundMonoQ (show (5 : ℚ) ≤ x * 100 by linarith)
    simpa using this
  have l2 : round (x * 100) ≤ (30 : ℤ) := by
    have := roundMonoQ (show x * 100 ≤ (30 : ℚ) by linarith)
    simpa using this
  unfold round2
  constructor
  · rw [le_div_iff₀ (by norm_num : (0:ℚ) < 100)]
    calc (1:ℚ)/20 * 100 = ((5:ℤ):ℚ) := by norm_num
    _ ≤ _ := by exact_mod_cast l1
  · rw [div_le_iff₀ (by norm_num : (0:ℚ) < 100)]
    calc ((round (x * 100) : ℤ) : ℚ) ≤ ((30:ℤ):ℚ) := by exact_mod_cast l2
    _ = 3/10 * 100 := by norm_num

/-- The argmax over `ALGOS` lands in `ALGOS`. -/
theorem pyMaxByKey_ALGOS_mem (key : String → ℚ) : pyMaxByKey key ALGOS "VWAP" ∈ ALGOS := by
  simp only [pyMaxByKey, ALGOS, List.foldl]
  split <;> split <;> simp

/-- The score-based selection always returns a member of `ALGOS`. -/
theorem selectByScores_mem (context : Context) (st : ScoreState) (pa : Option String) :
    (selectByScores context st pa).1 ∈ ALGOS := by
  simp only [selectByScores]
  rcases pa with _ | p
  · exact pyMaxByKey_ALGOS_mem _
  · dsimp only
    split
    · next h => exact h.2.1
    · exact pyMaxByKey_ALGOS_mem _

/-- `score_algos` always returns a member of `ALGOS`, whatever the rule and
pattern inputs are. -/
theorem scoreAlgos_mem (context : Context) (ra pa : Option String) :
    (scoreAlgos context ra pa).1 ∈ ALGOS := by
  simp only [scoreAlgos]
  rcases ra with _ | r
  · exact selectByScores_mem _ _ _
  · dsimp only
    split
    · next h => exact h.2
    · exact selectByScores_mem _ _ _

/-- A rule-forced algo from `ALGOS` short-circuits `score_algos` entirely. -/
theorem scoreAlgos_rule_override (context : Context) (pa : Option String)
    (ra : String) (h1 : ra ≠ "") (h2 : ra ∈ ALGOS) :
    (scoreAlgos context (some ra) pa).1 = ra := by
  simp [scoreAlgos, h1, h2]

/-- The pipeline stores the `score_algos` choice in `algo_type` unchanged. -/
theorem pipeline_algo_type (request : OrderRequest) (data : RefData) (now1 now2 : ℕ) :
    (runRecommendPipeline request data now1 now2).core_order_fields.algo_type
      = pipelineChosenAlgo request data now1 := rfl

/-- The pipeline's `order_type` is the `coreOrderType` applied to the
rule-engine override. -/
theorem pipeline_order_type (request : OrderRequest) (data : RefData) (now1 now2 : ℕ) :
    (runRecommendPipeline request data now1 now2).core_order_fields.order_type
      = (coreOrderType (buildContext request data now1)
          (applyRules (buildContext request data now1)).order_type).1 := rfl

/-- `notes_flags` of a built context is the parsed flags of the request notes. -/
theorem buildContext_notes_flags (request : OrderRequest) (data : RefData) (now1 : ℕ) :
    (buildContext request data now1).notes_flags = parseNotesFlags request.notes := rfl

/-- Rule 1: a VWAP flag in the notes forces the rule-engine algo to VWAP. -/
theorem applyRules_vwap (context : Context) (h : context.notes_flags.vwap = true) :
    (applyRules context).algo = some "VWAP" := by
  simp [applyRules, h]

/-- Rule 4 (plus rule 5 keeping it): size-vs-ADV above 25% forces a Limit
order-type override. -/
theorem applyRules_limit (context : Context) (h : 1/4 < context.size_vs_adv) :
    (applyRules context).order_type = some "Limit" := by
  have h1 : (4:ℚ)⁻¹ < context.size_vs_adv := by rw [← one_div]; exact h
  have h2 : ¬ context.size_vs_adv ≤ (4:ℚ)⁻¹ := not_le.mpr h1
  simp [applyRules, h1, h2]

/-- The pipeline's `algo_parameters` come from `build_algo_parameters` applied
to the pipeline's own intermediate values. -/
theorem pipeline_algo_parameters (request : OrderRequest) (data : RefData)
    (now1 now2 : ℕ) :
    (runRecommendPipeline request data now1 now2).algo_parameters
      = (buildAlgoParameters (buildContext request data now1)
          (pipelineChosenAlgo request data now1)
          (applyRules (buildContext request data now1)).aggression
          (matchHistorical request.client_id request.symbol
            (buildContext request data now1).size_vs_adv
            (buildContext request data now1).volatility_bucket
            data.historical_orders).2.1).1 := rfl

/-- `aggression_level` does not depend on the chosen algo branch. -/
theorem buildAlgoParameters_aggression (context : Context) (chosen_algo : String)
    (ra pa : Option String) :
    (buildAlgoParameters context chosen_algo ra pa).1.aggression_level
      = (resolveAggression context ra pa).1 := by
  simp only [buildAlgoParameters]
  split_ifs <;> rfl

/-- The POV branch stores the `povParticipationRate` value. -/
theorem buildAlgoParameters_pov_rate (context : Context) (ra pa : Option String) :
    (buildAlgoParameters context "POV" ra pa).1.participation_rate
      = some (povParticipationRate context) := by
  simp [buildAlgoParameters]

/-- `start_time` is the synthetic market clock derived from the second
wall-clock read. -/
theorem buildCoreFields_start_time (context : Context) (chosen_algo : String)
    (rot : Option String) (now2 : ℕ) :
    (buildCoreFields context chosen_algo rot now2).1.start_time
      = syntheticMarketNow now2 := rfl

/-- `end_time` is start plus the execution window, capped at 15:59 (minute
959). -/
theorem buildCoreFields_end_time (context : Context) (chosen_algo : String)
    (rot : Option String) (now2 : ℕ) :
    (buildCoreFields context chosen_algo rot now2).1.end_time
      = min (syntheticMarketNow now2 + executionWindowMinutes context.urgency_level
          context.effective_time_to_close) 959 := by
  simp only [buildCoreFields]
  split <;> omega

/-! ### Claim theorems -/

/-- C1: for every request, reference data and pair of clock samples, the
strategy chosen by `score_algos` inside the pipeline is exactly one element of
`ALGOS = {VWAP, POV, ICEBERG}` — whether a rule override, a pattern hint or
the score argmax decided it — and that same value is stored unchanged in
`CoreOrderFields.algo_type` of the response. -/
theorem claim_C1_one_strategy_stored (request : OrderRequest) (data : RefData)
    (now1 now2 : ℕ) :
    (runRecommendPipeline request data now1 now2).core_order_fields.algo_type
        = pipelineChosenAlgo request data now1 ∧
    pipelineChosenAlgo request data now1 ∈ ALGOS :=
  ⟨pipeline_algo_type request data now1 now2, scoreAlgos_mem _ _ _⟩

/-- C2: whenever the lowercased notes contain "vwap" (so in particular any
VWAP benchmark phrase, which makes the rule engine force algo = VWAP), the
pipeline's chosen algo is VWAP no matter what the scoring engine computed and
regardless of any pattern hint: the rule-forced algo short-circuits both the
argmax and the pattern nudge. -/
theorem claim_C2_vwap_notes_force_vwap (request : OrderRequest) (data : RefData)
    (now1 now2 : ℕ)
    (h : containsStr (lowerChars (request.notes.getD "")) "vwap" = true) :
    (applyRules (buildContext request data now1)).algo = some "VWAP" ∧
    (runRecommendPipeline request data now1 now2).core_order_fields.algo_type
      = "VWAP" := by
  have hflag : (buildContext request data now1).notes_flags.vwap = true := h
  have halgo := applyRules_vwap _ hflag
  refine ⟨halgo, ?_⟩
  rw [pipeline_algo_type]
  simp only [pipelineChosenAlgo]
  rw [halgo]
  exact scoreAlgos_rule_override _ _ _ (by decide) (by decide)

/-- Witness for C2 at the concrete request with notes "VWAP benchmark". -/
theorem claim_C2_witness :
    containsStr (lowerChars (reqVwap.notes.getD "")) "vwap" = true ∧
    (runRecommendPipeline reqVwap emptyData 1000 600).core_order_fields.algo_type
      = "VWAP" :=
  ⟨by decide, (claim_C2_vwap_notes_force_vwap reqVwap emptyData 1000 600 (by decide)).2⟩

/-- C3: whenever size-vs-ADV is strictly above 0.25, the rule engine emits a
Limit order-type override, `build_core_fields` honors it over its
urgency/liquidity/spread Market branch, and the resulting `order_type` is
never "Market". -/
theorem claim_C3_large_order_never_market (request : OrderRequest) (data : RefData)
    (now1 now2 : ℕ) (h : 1/4 < (buildContext request data now1).size_vs_adv) :
    (applyRules (buildContext request data now1)).order_type = some "Limit" ∧
    (runRecommendPipeline request data now1 now2).core_order_fields.order_type
      = "Limit" ∧
    (runRecommendPipeline request data now1 now2).core_order_fields.order_type
      ≠ "Market" := by
  have hot := applyRules_limit _ h
  have h2 : (runRecommendPipeline request data now1 now2).core_order_fields.order_type
      = "Limit" := by
    rw [pipeline_order_type, hot]
    simp [coreOrderType]
  exact ⟨hot, h2, by rw [h2]; decide⟩

/-- Witness for C3: 50 shares against an ADV of 100 (size-vs-ADV = 0.5). -/
theorem claim_C3_witness :
    1/4 < (buildContext reqLarge dataSmallAdv 1000).size_vs_adv ∧
    (runRecommendPipeline reqLarge dataSmallAdv 1000 600).core_order_fields.order_type
      ≠ "Market" := by
  have hsva : (buildContext reqLarge dataSmallAdv 1000).size_vs_adv = 1/2 := by
    norm_num [buildContext, getClientProfile, getInstrumentProfile, getMarketSnapshot,
      reqLarge, dataSmallAdv, insSmallAdv, List.find?, historicalSizeTolerance,
      parseNotesFlags, parseNotesIntents, lowerChars, containsStr, containsChars,
      startsWithChars, systemMinutesToClose, urgencyFromTimeToClose,
      volatilityBucketFromIntraday, liquidityScore]
  have h : 1/4 < (buildContext reqLarge dataSmallAdv 1000).size_vs_adv := by
    rw [hsva]; norm_num
  exact ⟨h, (claim_C3_large_order_never_market reqLarge dataSmallAdv 1000 600 h).2.2⟩

/-- C10: for every notes value, `_parse_notes_intents` only ever produces
`aggression_preference` in `{None, LOW, MEDIUM}` (never HIGH) and
`urgency_intent` in `{None, MEDIUM, HIGH}` (never LOW); hence the scoring
bump for aggression HIGH and the parameter-engine notes-HIGH branch are dead
when intents come from this parser. -/
theorem claim_C10_parser_ranges (notes : Option String) :
    (parseNotesIntents notes).aggression_preference ∈
        ([none, some "LOW", some "MEDIUM"] : List (Option String)) ∧
    (parseNotesIntents notes).urgency_intent ∈
        ([none, some "MEDIUM", some "HIGH"] : List (Option String)) ∧
    (parseNotesIntents notes).aggression_preference ≠ some "HIGH" := by
  refine ⟨?_, ?_, ?_⟩ <;> simp only [parseNotesIntents] <;> split_ifs <;> simp

/-- C8 counterexample: "last-match-wins per field" fails for the urgency and
aggression fields.  The notes "urgent steady execution" match the earlier
"urgent" keyword (value HIGH) and the later "steady execution" phrase (value
MEDIUM); the parser keeps the earlier HIGH.  Likewise "minimize market impact
steady execution" keeps the earlier LOW instead of the later MEDIUM. -/
theorem claim_C8_counterexample :
    (parseNotesIntents (some "urgent steady execution")).urgency_intent
        = some "HIGH" ∧
    (parseNotesIntents (some "minimize market impact steady execution")).aggression_preference
        = some "LOW" ∧
    ("HIGH" : String) ≠ "MEDIUM" ∧ ("LOW" : String) ≠ "MEDIUM" :=
  ⟨by decide, by decide, by decide, by decide⟩

/-- C8 amended: matches are evaluated in a fixed order; the benchmark field is
last-match-wins (a later ARRIVAL match overwrites an earlier VWAP one), but
the urgency and aggression fields are first-match-wins: once an earlier
trigger has set them, a later "steady execution" match does not overwrite. -/
theorem claim_C8_amended (notes : Option String) :
    (containsStr (lowerChars (notes.getD "")) "arrival price" = true →
      (parseNotesIntents notes).benchmark_type = some "ARRIVAL") ∧
    (containsStr (lowerChars (notes.getD "")) "urgent" = true →
     containsStr (lowerChars (notes.getD "")) "eod compliance required" = false →
     containsStr (lowerChars (notes.getD "")) "must complete by close" = false →
     containsStr (lowerChars (notes.getD "")) "must complete" = false →
      (parseNotesIntents notes).urgency_intent = some "HIGH") ∧
    (containsStr (lowerChars (notes.getD "")) "minimize market impact" = true →
      (parseNotesIntents notes).aggression_preference = some "LOW") := by
  refine ⟨?_, ?_, ?_⟩
  · intro h
    simp [parseNotesIntents, h]
  · intro hu h1 h2 h3
    simp [parseNotesIntents, hu, h1, h2, h3]
  · intro hi
    simp [parseNotesIntents, hi]

/-- Witness for the amended C8 on notes containing an urgency keyword, a later
"steady execution" phrase, an arrival-price phrase and an impact phrase. -/
theorem claim_C8_amended_witness :
    (parseNotesIntents notesMixed).benchmark_type = some "ARRIVAL" ∧
    (parseNotesIntents notesMixed).urgency_intent = some "HIGH" ∧
    (parseNotesIntents notesMixed).aggression_preference = some "LOW" :=
  ⟨(claim_C8_amended notesMixed).1 (by decide),
   (claim_C8_amended notesMixed).2.1 (by decide) (by decide) (by decide) (by decide),
   (claim_C8_amended notesMixed).2.2 (by decide)⟩

/-- C4: when the client, instrument and market lookups all miss, the context
degenerates to the documented defaults — ADV 1.0 (so size-vs-ADV equals the
raw order size, with the division guard never firing), instrument volatility
and liquidity buckets "Medium", spread 0.0, intraday volatility 0.015 (whose
bucket is "Medium"), and the liquidity score computed with the last-trade-size
default 500 — and the pipeline still produces a complete response whose chosen
algo is one of the three candidates. -/
theorem claim_C4_missing_rows_use_defaults (request : OrderRequest) (data : RefData)
    (now1 now2 : ℕ)
    (hc : getClientProfile request.client_id data = none)
    (hi : getInstrumentProfile request.symbol data = none)
    (hm : getMarketSnapshot request.symbol data = none) :
    (buildContext request data now1).adv = 1 ∧
    (buildContext request data now1).size_vs_adv = (request.order_size : ℚ) ∧
    (buildContext request data now1).volatility_bucket_instrument = "Medium" ∧
    (buildContext request data now1).liquidity_bucket = "Medium" ∧
    (buildContext request data now1).spread = 0 ∧
    (buildContext request data now1).intraday_vol = 15/1000 ∧
    (buildContext request data now1).volatility_bucket = "Medium" ∧
    (buildContext request data now1).liquidity_score = liquidityScore 1 0 500 ∧
    (runRecommendPipeline request data now1 now2).core_order_fields.algo_type ∈ ALGOS := by
  refine ⟨?_, ?_, ?_, ?_, ?_, ?_, ?_, ?_, ?_⟩
  · simp [buildContext, hc, hi, hm]
  · simp [buildContext, hc, hi, hm]
  · simp [buildContext, hc, hi, hm]
  · simp [buildContext, hc, hi, hm]
  · simp [buildContext, hc, hi, hm]
  · simp [buildContext, hc, hi, hm]
  · simp [buildContext, hc, hi, hm]
    norm_num [volatilityBucketFromIntraday]
  · simp [buildContext, hc, hi, hm]
  · rw [pipeline_algo_type]
    exact scoreAlgos_mem _ _ _

/-- Witness for C4 with empty reference data. -/
theorem claim_C4_witness :
    getClientProfile reqShort.client_id emptyData = none ∧
    (buildContext reqShort emptyData 1000).adv = 1 ∧
    (buildContext reqShort emptyData 1000).spread = 0 ∧
    (runRecommendPipeline reqShort emptyData 1000 600).core_order_fields.algo_type
      ∈ ALGOS := by
  have h := claim_C4_missing_rows_use_defaults reqShort emptyData 1000 600 rfl rfl rfl
  exact ⟨rfl, h.1, h.2.2.2.2.1, h.2.2.2.2.2.2.2.2⟩

/-- The resolved aggression equals the (amended) precedence chain applied to
the client default, notes preference, urgency, pattern and rule inputs. -/
theorem resolveAggression_spec (context : Context) (ra pa : Option String) :
    (resolveAggression context ra pa).1
      = aggressionResolutionSpec (clientAggressionDefault context.client_profile)
          context.notes_intents.aggression_preference context.urgency_level pa ra := by
  simp only [resolveAggression, resolveAggressionValue, aggressionResolutionSpec,
    clientAggressionDefault]

/-- C5 amended: in `build_algo_parameters` the aggression level follows the
last-applied-wins chain — client default ("Medium" when absent or empty),
then the notes preference applied only when it is HIGH (to "High") or LOW (to
"Low") — a MEDIUM preference does not overwrite — then urgency High forcing
"High" when not already "High", then a non-empty pattern override, then a
non-empty rule override, which always wins. -/
theorem claim_C5_aggression_precedence (context : Context) (chosen_algo : String)
    (ra pa : Option String) :
    (buildAlgoParameters context chosen_algo ra pa).1.aggression_level
      = aggressionResolutionSpec (clientAggressionDefault context.client_profile)
          context.notes_intents.aggression_preference context.urgency_level pa ra := by
  rw [buildAlgoParameters_aggression, resolveAggression_spec]

/-- C5 counterexample: "steady execution" notes yield a MEDIUM aggression
preference, yet a client default of "High" survives: the notes preference is
present but does not overwrite, contradicting the claim's unconditional
"overwritten by a notes aggression preference if present" step. -/
theorem claim_C5_counterexample :
    buildContext reqSteady dataHighBias 1000 = ctxSteady ∧
    ctxSteady.notes_intents.aggression_preference = some "MEDIUM" ∧
    clientAggressionDefault ctxSteady.client_profile = "High" ∧
    (applyRules ctxSteady).aggression = none ∧
    (runRecommendPipeline reqSteady dataHighBias 1000 600).algo_parameters.aggression_level
      = "High" ∧
    ("High" : String) ≠ "Medium" := by
  have hni : parseNotesIntents (some "steady execution")
      = ⟨some "MEDIUM", none, some "MEDIUM", false, false⟩ := by decide
  have hnf : parseNotesFlags (some "steady execution")
      = ⟨false, false, false, false⟩ := by decide
  have hctx : buildContext reqSteady dataHighBias 1000 = ctxSteady := by
    norm_num [buildContext, ctxSteady, reqSteady, dataHighBias, cliHighBias,
      getClientProfile, getInstrumentProfile, getMarketSnapshot, List.find?,
      systemMinutesToClose, urgencyFromTimeToClose, volatilityBucketFromIntraday,
      liquidityScore, historicalSizeTolerance, hni, hnf]
    all_goals simp
  have hagg : (applyRules ctxSteady).aggression = none := by
    norm_num [applyRules, ctxSteady]
    all_goals decide
  have hpipe : (runRecommendPipeline reqSteady dataHighBias 1000 600).algo_parameters.aggression_level
      = "High" := by
    rw [pipeline_algo_parameters, buildAlgoParameters_aggression, hctx]
    have hpat : (matchHistorical reqSteady.client_id reqSteady.symbol
        ctxSteady.size_vs_adv ctxSteady.volatility_bucket
        dataHighBias.historical_orders).2.1 = none := rfl
    rw [hpat, hagg]
    decide
  exact ⟨hctx, by decide, by decide, hagg, hpipe, by decide⟩

/-- The ARRIVAL adjustment (`+0.02` capped at `0.30`) keeps the POV band. -/
theorem adjust_arrival_band {b : ℚ} (c : Prop) [Decidable c]
    (h1 : 1/20 ≤ b) (h2 : b ≤ 3/10) :
    1/20 ≤ (if c then min (b + 2/100) (30/100) else b) ∧
    (if c then min (b + 2/100) (30/100) else b) ≤ 3/10 := by
  split_ifs
  · exact ⟨le_min (by linarith) (by norm_num), le_trans (min_le_right _ _) (by norm_num)⟩
  · exact ⟨h1, h2⟩

/-- The urgency adjustment (`+0.05` capped at `0.30`) keeps the POV band. -/
theorem adjust_urgency_band {b : ℚ} (c : Prop) [Decidable c]
    (h1 : 1/20 ≤ b) (h2 : b ≤ 3/10) :
    1/20 ≤ (if c then min (30/100) (b + 5/100) else b) ∧
    (if c then min (30/100) (b + 5/100) else b) ≤ 3/10 := by
  split_ifs
  · exact ⟨le_min (by norm_num) (by linarith), le_trans (min_le_left _ _) (by norm_num)⟩
  · exact ⟨h1, h2⟩

/-- The impact adjustment (`-0.03` floored at `0.05`) keeps the POV band. -/
theorem adjust_impact_band {b : ℚ} (c : Prop) [Decidable c]
    (h1 : 1/20 ≤ b) (h2 : b ≤ 3/10) :
    1/20 ≤ (if c then max (5/100) (b - 3/100) else b) ∧
    (if c then max (5/100) (b - 3/100) else b) ≤ 3/10 := by
  split_ifs
  · exact ⟨le_trans (by norm_num) (le_max_left _ _), max_le (by norm_num) (by linarith)⟩
  · exact ⟨h1, h2⟩

/-- C6 amended: provided the client participation preference lies in
`[0.05, 0.30]` (the missing-client default 0.10 does), the POV
participation rate stays in `[0.05, 0.30]` under every combination of the
ARRIVAL, urgency-High and impact-sensitive adjustments and the final
rounding.  Without that restriction the claim fails (see the
counterexample): the base preference itself is never clamped. -/
theorem claim_C6_participation_band (context : Context) (ra pa : Option String)
    (h1 : 1/20 ≤ povBase context.client_profile)
    (h2 : povBase context.client_profile ≤ 3/10) :
    (buildAlgoParameters context "POV" ra pa).1.participation_rate
        = some (povParticipationRate context) ∧
    1/20 ≤ povParticipationRate context ∧ povParticipationRate context ≤ 3/10 := by
  refine ⟨buildAlgoParameters_pov_rate context ra pa, ?_⟩
  have hb1 := adjust_arrival_band
    (context.notes_intents.benchmark_type = some "ARRIVAL") h1 h2
  have hb2 := adjust_urgency_band (context.urgency_level = "High") hb1.1 hb1.2
  have hb3 := adjust_impact_band
    (context.notes_intents.market_impact_sensitive = true) hb2.1 hb2.2
  simp only [povParticipationRate]
  exact round2_mem_pov_band hb3.1 hb3.2

/-- Witness for the amended C6 at a context with no client profile (base
preference defaults to 0.10). -/
theorem claim_C6_witness :
    1/20 ≤ povBase (buildContext reqShort emptyData 1000).client_profile ∧
    povBase (buildContext reqShort emptyData 1000).client_profile ≤ 3/10 ∧
    1/20 ≤ povParticipationRate (buildContext reqShort emptyData 1000) ∧
    povParticipationRate (buildContext reqShort emptyData 1000) ≤ 3/10 := by
  have hcp : (buildContext reqShort emptyData 1000).client_profile = none := rfl
  have h1 : 1/20 ≤ povBase (buildContext reqShort emptyData 1000).client_profile := by
    rw [hcp]; norm_num [povBase]
  have h2 : povBase (buildContext reqShort emptyData 1000).client_profile ≤ 3/10 := by
    rw [hcp]; norm_num [povBase]
  have h := claim_C6_participation_band (buildContext reqShort emptyData 1000)
    none none h1 h2
  exact ⟨h1, h2, h.2.1, h.2.2⟩

/-- C6 counterexample: a client participation preference of 0.50 flows through
unclamped when no adjustment fires — the pipeline chooses POV and emits
participation_rate 0.50, outside `[0.05, 0.30]`. -/
theorem claim_C6_counterexample :
    buildContext reqSmall dataWidePref 1000 = ctxSmall ∧
    pipelineChosenAlgo reqSmall dataWidePref 1000 = "POV" ∧
    (runRecommendPipeline reqSmall dataWidePref 1000 600).algo_parameters.participation_rate
        = some (1/2) ∧
    ¬ ((1:ℚ)/2 ≤ 3/10) := by
  have hni : parseNotesIntents none = ⟨none, none, none, false, false⟩ := by decide
  have hnf : parseNotesFlags none = ⟨false, false, false, false⟩ := by decide
  have hctx : buildContext reqSmall dataWidePref 1000 = ctxSmall := by
    norm_num [buildContext, ctxSmall, reqSmall, dataWidePref, cliWidePref, insLiquid,
      mktWideSpread, getClientProfile, getInstrumentProfile, getMarketSnapshot,
      List.find?, systemMinutesToClose, urgencyFromTimeToClose,
      volatilityBucketFromIntraday, liquidityScore, historicalSizeTolerance, hni, hnf]
    all_goals simp
  have hst : scoreAllFactors ctxSmall
      = ⟨⟨0, 5/2, 0⟩, [], ["Small order size; POV remains flexible",
          "Medium urgency; light tilt toward POV"], []⟩ := by
    simp [scoreAllFactors, ctxSmall, bumpVWAP, bumpPOV, bumpICEBERG]
    norm_num
  have hrule : applyRules ctxSmall = ⟨none, none, none, []⟩ := by
    simp [applyRules, ctxSmall]
    norm_num
  have hchosen : pipelineChosenAlgo reqSmall dataWidePref 1000 = "POV" := by
    simp only [pipelineChosenAlgo]
    rw [hctx, hrule]
    have hpat : (matchHistorical reqSmall.client_id reqSmall.symbol ctxSmall.size_vs_adv
        ctxSmall.volatility_bucket dataWidePref.historical_orders).1 = none := rfl
    rw [hpat]
    simp [scoreAlgos, hst, selectByScores, ebmAdjustAlgoScores, pyMaxByKey, ALGOS,
      AlgoScores.get, ScoreState.reasonsFor, dedupe]
    norm_num
  have hragg : (applyRules ctxSmall).aggression = none := by rw [hrule]
  have hrate : (runRecommendPipeline reqSmall dataWidePref 1000 600).algo_parameters.participation_rate
      = some (1/2) := by
    rw [pipeline_algo_parameters, hctx, hchosen]
    have hpat2 : (matchHistorical reqSmall.client_id reqSmall.symbol ctxSmall.size_vs_adv
        ctxSmall.volatility_bucket dataWidePref.historical_orders).2.1 = none := rfl
    rw [hpat2, hragg, buildAlgoParameters_pov_rate]
    norm_num [povParticipationRate, povBase, ctxSmall, cliWidePref, round2, round_eq]
    all_goals simp
    all_goals norm_num
  exact ⟨hctx, hchosen, hrate, by norm_num⟩

/-- C7 amended: the execution window is at most the urgency cap (High 30,
Medium 90, Low 240) and at most the effective time-to-close; the 10-minute
floor applies only up to the effective time-to-close — the window is at least
`min 10 eff` when `eff > 0` (hence at least 10 whenever `eff ≥ 10`, not for
every `eff > 0` as originally claimed); `start_time` is the synthetic market
clock and `end_time` is start plus the window capped at 15:59 (minute 959);
in particular urgency High with `eff = 10` gives exactly a 10-minute window. -/
theorem claim_C7_window_bounds :
    (∀ (urgency : String) (eff : ℕ),
      executionWindowMinutes urgency eff
          ≤ (if urgency = "High" then 30 else if urgency = "Medium" then 90 else 240) ∧
      executionWindowMinutes urgency eff ≤ eff ∧
      (0 < eff → min 10 eff ≤ executionWindowMinutes urgency eff) ∧
      (10 ≤ eff → 10 ≤ executionWindowMinutes urgency eff)) ∧
    (∀ (context : Context) (chosen_algo : String) (rot : Option String) (now2 : ℕ),
      (buildCoreFields context chosen_algo rot now2).1.start_time
          = syntheticMarketNow now2 ∧
      (buildCoreFields context chosen_algo rot now2).1.end_time
          = min (syntheticMarketNow now2 + executionWindowMinutes context.urgency_level
              context.effective_time_to_close) 959) ∧
    executionWindowMinutes "High" 10 = 10 := by
  refine ⟨?_, ?_, by decide⟩
  · intro urgency eff
    refine ⟨?_, ?_, ?_, ?_⟩ <;> simp only [executionWindowMinutes] <;>
      split_ifs <;> omega
  · intro context chosen_algo rot now2
    exact ⟨buildCoreFields_start_time context chosen_algo rot now2,
      buildCoreFields_end_time context chosen_algo rot now2⟩

/-- Witness for the amended C7 at urgency High with 10 minutes to close. -/
theorem claim_C7_witness :
    executionWindowMinutes "High" 10 ≤ 30 ∧ executionWindowMinutes "High" 10 ≤ 10 ∧
    10 ≤ executionWindowMinutes "High" 10 := by
  have h := claim_C7_window_bounds.1 "High" 10
  refine ⟨?_, h.2.1, h.2.2.2 (by norm_num)⟩
  have h1 := h.1
  simpa using h1

/-- C7 counterexample: with urgency High and effective time-to-close 5 (> 0),
the window is 5 minutes, below the claimed 10-minute floor. -/
theorem claim_C7_counterexample :
    (buildContext reqShort emptyData 1000).effective_time_to_close = 5 ∧
    (buildContext reqShort emptyData 1000).urgency_level = "High" ∧
    0 < 5 ∧
    executionWindowMinutes "High" 5 = 5 ∧
    ¬ (10 ≤ executionWindowMinutes "High" 5) ∧
    (buildCoreFields (buildContext reqShort emptyData 1000) "POV" none 600).1.start_time
        = 600 ∧
    (buildCoreFields (buildContext reqShort emptyData 1000) "POV" none 600).1.end_time
        = 605 :=
  ⟨by decide, by decide, by decide, by decide, by decide, by decide, by decide⟩

/-- C9 amended: the source reads the wall clock twice per request — once in
`build_context` (sample `now1`, feeding minutes-to-close, urgency and the
window length) and once in `build_core_fields` (sample `now2`, feeding only
`start_time` and `end_time`).  Holding both samples fixed the pipeline is a
pure function; varying the second sample changes nothing outside
`start_time`/`end_time` — but those two fields do follow `now2`, so the claim
that a single sample is threaded through the whole request is false. -/
theorem claim_C9_two_clock_reads (request : OrderRequest) (data : RefData)
    (now1 n2 n2' : ℕ) :
    (runRecommendPipeline request data now1 n2).algo_parameters
        = (runRecommendPipeline request data now1 n2').algo_parameters ∧
    (runRecommendPipeline request data now1 n2).context_flags
        = (runRecommendPipeline request data now1 n2').context_flags ∧
    (runRecommendPipeline request data now1 n2).explanations
        = (runRecommendPipeline request data now1 n2').explanations ∧
    (runRecommendPipeline request data now1 n2).core_order_fields.order_type
        = (runRecommendPipeline request data now1 n2').core_order_fields.order_type ∧
    (runRecommendPipeline request data now1 n2).core_order_fields.limit_price
        = (runRecommendPipeline request data now1 n2').core_order_fields.limit_price ∧
    (runRecommendPipeline request data now1 n2).core_order_fields.time_in_force
        = (runRecommendPipeline request data now1 n2').core_order_fields.time_in_force ∧
    (runRecommendPipeline request data now1 n2).core_order_fields.algo_type
        = (runRecommendPipeline request data now1 n2').core_order_fields.algo_type ∧
    (runRecommendPipeline request data now1 n2).core_order_fields.start_time
        = syntheticMarketNow n2 ∧
    (runRecommendPipeline request data now1 n2).core_order_fields.end_time
        = min (syntheticMarketNow n2
            + executionWindowMinutes (buildContext request data now1).urgency_level
              (buildContext request data now1).effective_time_to_close) 959 :=
  ⟨rfl, rfl, rfl, rfl, rfl, rfl, rfl, rfl,
   buildCoreFields_end_time (buildContext request data now1)
     (pipelineChosenAlgo request data now1)
     (applyRules (buildContext request data now1)).order_type n2⟩

/-- C9 counterexample: with the context-stage clock sample held fixed at
16:40 (after hours), moving the second clock read from 10:00 to 11:00 moves
`start_time` — the output depends on a second, later clock reading. -/
theorem claim_C9_counterexample :
    (runRecommendPipeline reqShort emptyData 1000 600).core_order_fields.start_time
        = 600 ∧
    (runRecommendPipeline reqShort emptyData 1000 660).core_order_fields.start_time
        = 660 ∧
    (600 : ℕ) ≠ 660 :=
  ⟨by decide, by decide, by decide⟩
